import Mathlib

/-!
Verification of the retrieval subsystem (RAG core) of the
Risk-Management-System repository: a shallow embedding in Lean 4 of
`src/services/rag/document_loader.py`, `retriever.py`, `vector_store.py`
and `core.py`, together with theorems settling the spec's claims about it.

Modelling conventions:
* Python strings are Lean `String`; `str.lower`, `str.title`, `str.strip`
  are modelled on ASCII (the repository's cased data is ASCII).
* Python timestamps (`st_mtime`) are modelled as `Int`.
* Fallible calls into the environment (Chroma, the embedding provider,
  the retriever invocation) are parameters of type `Except String _`;
  a Python function that may raise is embedded as a function returning
  `Except String _`, and its `try/except` wrapper catches by matching.
-/

namespace RiskRAG

/-! ## Python string primitives -/

/-- Boolean infix test on character lists: `infixCheck n h` decides whether
`n` occurs contiguously inside `h`.  Models Python's `n in h` on strings. -/
def infixCheck (n : List Char) : List Char → Bool
  | [] => n.isEmpty
  | c :: cs => List.isPrefixOf n (c :: cs) || infixCheck n cs

/-- Python `needle in hay` for strings (substring containment). -/
def pyIn (needle hay : String) : Bool :=
  infixCheck needle.toList hay.toList

/-- Python `s.lower()` (ASCII model). -/
def pyLower (s : String) : String :=
  ⟨s.toList.map Char.toLower⟩

/-- Python `s.strip()` (ASCII whitespace model). -/
def pyStrip (s : String) : String :=
  ⟨((s.toList.dropWhile Char.isWhitespace).reverse.dropWhile Char.isWhitespace).reverse⟩

/-- One left-to-right non-overlapping replacement pass over a character
list; helper for `pyReplace`.  The fuel argument (instantiated with the
list length, an upper bound on the number of steps) keeps the recursion
structural. -/
def replaceAux (pat rep : List Char) : Nat → List Char → List Char
  | _, [] => []
  | 0, l => l
  | fuel + 1, c :: cs =>
    if List.isPrefixOf pat (c :: cs) then
      rep ++ replaceAux pat rep fuel (cs.drop (pat.length - 1))
    else
      c :: replaceAux pat rep fuel cs

/-- Python `s.replace(pat, rep)` (all non-overlapping occurrences,
left to right).  The `pat = ""` corner case, never exercised by the
repository, is modelled as the identity. -/
def pyReplace (s pat rep : String) : String :=
  if pat.isEmpty then s
  else ⟨replaceAux pat.toList rep.toList s.toList.length s.toList⟩

/-- Helper for `pyTitle`: the Bool records whether the previous character
was alphabetic. -/
def titleAux : List Char → Bool → List Char
  | [], _ => []
  | c :: cs, prevAlpha =>
    (if prevAlpha then c.toLower else c.toUpper) :: titleAux cs c.isAlpha

/-- Python `s.title()` (ASCII model): the first character of every
alphabetic run is uppercased, the rest lowercased. -/
def pyTitle (s : String) : String :=
  ⟨titleAux s.toList false⟩

/-- Python `sep.join(parts)`. -/
def pyJoin (sep : String) : List String → String
  | [] => ""
  | [x] => x
  | x :: y :: xs => x ++ sep ++ pyJoin sep (y :: xs)

/-- Python `enumerate(xs, start)`. -/
def pyEnumerate {α : Type} (start : Nat) : List α → List (Nat × α)
  | [] => []
  | x :: xs => (start, x) :: pyEnumerate (start + 1) xs

/-! Bridge between the executable `infixCheck` and the propositional
`List.IsInfix` (`<:+:`). -/

theorem infixCheck_iff (n : List Char) :
    ∀ h : List Char, infixCheck n h = true ↔ n <:+: h := by
  intro h
  induction h with
  | nil =>
    simp only [infixCheck, List.isEmpty_iff]
    constructor
    · intro hn; simp [hn]
    · intro hn; exact List.eq_nil_of_infix_nil hn
  | cons c cs ih =>
    simp only [infixCheck, Bool.or_eq_true, ih]
    rw [List.infix_cons_iff]
    simp

/-! ## Document Ingestor (`document_loader.py`) -/

/-- The fixed domain vocabulary `SecurityDocumentLoader.security_keywords`. -/
def securityKeywords : List String :=
  ["magerit", "octave", "vulnerabilidad", "amenaza", "riesgo", "impacto",
   "control", "salvaguarda", "activo", "confidencialidad", "integridad",
   "disponibilidad", "iso", "nist", "ens", "ciberseguridad", "framework",
   "metodología", "análisis", "gestión", "evaluación", "mitigación",
   "compliance", "auditoria", "incidente", "contingencia"]

/-- `SecurityDocumentLoader._extract_keywords`: keep the vocabulary terms
occurring in the lower-cased content, in vocabulary order, capped at 10. -/
def extractKeywords (content : String) : List String :=
  ((securityKeywords.filter (fun kw => pyIn kw (pyLower content))).take 10)

/-- Claim C7: for every chunk text, the extracted keyword list equals the
subsequence of the fixed 26-term domain vocabulary (in the vocabulary's
original order) whose terms occur as case-insensitive substrings of the
chunk text, truncated to at most 10 entries. -/
theorem extractKeywords_spec (content : String) :
    extractKeywords content
      = (securityKeywords.filter
          (fun kw => pyIn (pyLower kw) (pyLower content))).take 10
    ∧ List.Sublist (extractKeywords content) securityKeywords
    ∧ (extractKeywords content).length ≤ 10 := by
  have hlow : ∀ kw ∈ securityKeywords, pyLower kw = kw := by decide
  refine ⟨?_, ?_, ?_⟩
  · unfold extractKeywords
    have hcongr :
        securityKeywords.filter (fun kw => pyIn kw (pyLower content))
          = securityKeywords.filter
              (fun kw => pyIn (pyLower kw) (pyLower content)) := by
      apply List.filter_congr
      intro kw hkw
      rw [hlow kw hkw]
    rw [hcongr]
  · exact (List.take_sublist _ _).trans (List.filter_sublist _)
  · unfold extractKeywords
    rw [List.length_take]
    exact Nat.min_le_left _ _

/-! ## Retriever data model (`retriever.py`) -/

/-- A Python metadata value as produced by the ingestion pipeline:
a string or an integer. -/
inductive PyVal where
  | s : String → PyVal
  | i : Int → PyVal
deriving DecidableEq, Repr

/-- Python `dict.get(key)` on a metadata map (`None` when absent). -/
def mdGet (md : List (String × PyVal)) (k : String) : Option PyVal :=
  (md.find? (fun p => p.1 == k)).map Prod.snd

/-- Python `metadata.get(key, default)` for the string-valued keys the
loader writes (`document_type`, `filename`, `chunk_id`). -/
def getStrD (md : List (String × PyVal)) (k dflt : String) : String :=
  match mdGet md k with
  | some (.s v) => v
  | _ => dflt

/-- Python `metadata.get(key, default)` for the integer-valued keys the
loader writes (`chunk_index`, `total_chunks`). -/
def getIntD (md : List (String × PyVal)) (k : String) (dflt : Int) : Int :=
  match mdGet md k with
  | some (.i v) => v
  | _ => dflt

/-- `metadata.get("keywords", [])`: the loader stores the keyword list as
one comma-joined string, so the present case is a string; `none` models
the Python default `[]` used when the key is absent. -/
def getKeywordsField (md : List (String × PyVal)) : Option String :=
  match mdGet md "keywords" with
  | some (.s v) => some v
  | _ => none

/-- A LangChain `Document` as returned by the retriever invocation. -/
structure PyDoc where
  pageContent : String
  metadata : List (String × PyVal)
deriving DecidableEq, Repr

/-- One element of `SecurityRetriever.search_documents`'s result list
(the dict built at `retriever.py:125-138`; the constant
`score = getattr(doc, "score", None) = None` field is omitted). -/
structure SearchResult where
  content : String
  metadata : List (String × PyVal)
  relevanceRank : Nat
  documentType : String
  filename : String
  keywords : Option String
  chunkId : String
  chunkIndex : Int
  totalChunks : Int
  matchedKeywords : List String
deriving DecidableEq, Repr

/-- Build the enriched result dict for the document at 0-based
position `i` of the retained list (`relevance_rank = i + 1`). -/
def toSearchResult (i : Nat) (d : PyDoc) : SearchResult :=
  { content := d.pageContent
    metadata := d.metadata
    relevanceRank := i + 1
    documentType := getStrD d.metadata "document_type" "unknown"
    filename := getStrD d.metadata "filename" "unknown"
    keywords := getKeywordsField d.metadata
    chunkId := getStrD d.metadata "chunk_id" ""
    chunkIndex := getIntD d.metadata "chunk_index" 0
    totalChunks := getIntD d.metadata "total_chunks" 1
    matchedKeywords := [] }

/-- The `formatted_results` loop of `search_documents`. -/
def formatResults (docs : List PyDoc) : List SearchResult :=
  (pyEnumerate 0 docs).map (fun p => toSearchResult p.1 p.2)

/-- A value of the `filter_metadata` dict: a Python list means "any of",
a scalar means "equals". -/
inductive FilterVal where
  | list : List PyVal → FilterVal
  | scalar : PyVal → FilterVal
deriving DecidableEq, Repr

/-- The per-key test of `_apply_metadata_filters`: membership for list
filters, equality for scalar filters; a missing key fails both (Python's
`None` is neither a member of a value list nor equal to a value). -/
def satisfiesFilter (md : List (String × PyVal)) (f : String × FilterVal) : Bool :=
  match f.2 with
  | .list vals =>
    match mdGet md f.1 with
    | some v => vals.contains v
    | none => false
  | .scalar v0 =>
    match mdGet md f.1 with
    | some v => v == v0
    | none => false

/-- The inner `for filter_key, filter_value in filters.items()` loop with
its early `break`: the document is kept only if every filter passes. -/
def includeDoc (md : List (String × PyVal)) : List (String × FilterVal) → Bool
  | [] => true
  | f :: rest => if !(satisfiesFilter md f) then false else includeDoc md rest

/-- `SecurityRetriever._apply_metadata_filters` (the outer loop,
appending each retained document in order). -/
def applyMetadataFilters (docs : List PyDoc) (filters : List (String × FilterVal)) :
    List PyDoc :=
  match docs with
  | [] => []
  | d :: ds =>
    if includeDoc d.metadata filters then
      d :: applyMetadataFilters ds filters
    else
      applyMetadataFilters ds filters

/-- The body of `SecurityRetriever.search_documents` without its
`try/except` wrapper.  `configured` models `self.retriever is not None`;
`invoke` models the (fallible) retriever invocation for the query. -/
def searchDocumentsBody (configured : Bool) (invoke : Except String (List PyDoc))
    (maxResults : Nat) (filterMetadata : Option (List (String × FilterVal))) :
    Except String (List SearchResult) :=
  if !configured then
    .error "Retriever no configurado"
  else
    match invoke with
    | .error e => .error e
    | .ok docs =>
      let docs := match filterMetadata with
        | some fs => applyMetadataFilters docs fs
        | none => docs
      .ok (formatResults (docs.take maxResults))

/-- `SecurityRetriever.search_documents` as the caller sees it: the
`except Exception` clause catches every failure of the body and degrades
it to `[]`; the function itself never raises, hence always `.ok`. -/
def searchDocumentsEx (configured : Bool) (invoke : Except String (List PyDoc))
    (maxResults : Nat) (filterMetadata : Option (List (String × FilterVal))) :
    Except String (List SearchResult) :=
  match searchDocumentsBody configured invoke maxResults filterMetadata with
  | .ok l => .ok l
  | .error _ => .ok []

/-- The plain result list of `search_documents`. -/
def searchDocuments (configured : Bool) (invoke : Except String (List PyDoc))
    (maxResults : Nat) (filterMetadata : Option (List (String × FilterVal))) :
    List SearchResult :=
  match searchDocumentsEx configured invoke maxResults filterMetadata with
  | .ok l => l
  | .error _ => []

/-- `SecurityRetriever.search_by_document_type`: delegates to
`search_documents` with the filter `{"document_type": document_types}`. -/
def searchByDocumentType (configured : Bool) (invoke : Except String (List PyDoc))
    (documentTypes : List String) (maxResults : Nat) : List SearchResult :=
  searchDocuments configured invoke maxResults
    (some [("document_type", FilterVal.list (documentTypes.map PyVal.s))])

/-- Python `keyword.lower() in doc_keywords` where `doc_keywords` came
from `result.get("keywords", [])`: substring test on the stored string,
always false against the `[]` default. -/
def pyInOpt (needle : String) : Option String → Bool
  | some s => pyIn needle s
  | none => false

/-- The `has_keywords` test of `search_by_keywords` (disjuncts in source
order: keyword field first, then lower-cased content). -/
def hasRequiredKeywords (required : List String) (r : SearchResult) : Bool :=
  required.any (fun kw =>
    pyInOpt (pyLower kw) r.keywords || pyIn (pyLower kw) (pyLower r.content))

/-- The `matched_keywords` annotation of `search_by_keywords` (disjuncts
in source order: content first, then keyword field). -/
def withMatched (required : List String) (r : SearchResult) : SearchResult :=
  { r with matchedKeywords :=
      required.filter (fun kw =>
        pyIn (pyLower kw) (pyLower r.content) || pyInOpt (pyLower kw) r.keywords) }

/-- One iteration of the `search_by_keywords` filtering loop: append the
annotated result when it carries a required keyword. -/
def appendIfMatch (required : List String) (r : SearchResult)
    (acc : List SearchResult) : List SearchResult :=
  if hasRequiredKeywords required r then acc ++ [withMatched required r] else acc

/-- The filtering loop of `search_by_keywords`, including the
`if len(filtered_results) >= max_results: break` check performed after
every iteration (appended or not). -/
def searchByKeywordsLoop (required : List String) (maxResults : Nat) :
    List SearchResult → List SearchResult → List SearchResult
  | [], acc => acc
  | r :: rs, acc =>
    if maxResults ≤ (appendIfMatch required r acc).length then
      appendIfMatch required r acc
    else
      searchByKeywordsLoop required maxResults rs (appendIfMatch required r acc)

/-- `SecurityRetriever.search_by_keywords`: an initial
`search_documents(query, max_results * 2)` pass followed by the keyword
filtering loop (the surrounding `try/except` never fires: the body is
pure once the initial search has degraded its own failures). -/
def searchByKeywords (configured : Bool) (invoke : Except String (List PyDoc))
    (required : List String) (maxResults : Nat) : List SearchResult :=
  searchByKeywordsLoop required maxResults
    (searchDocuments configured invoke (maxResults * 2) none) []

/-! ## Knowledge Orchestrator search (`core.py`) -/

/-- The body of `SecurityKnowledgeRAG.search_relevant_context` without its
`try/except` wrapper: raises when the system is not initialized, else
dispatches on `document_types`. -/
def searchRelevantContextBody (isInitialized : Bool) (configured : Bool)
    (invoke : Except String (List PyDoc)) (maxChunks : Nat)
    (documentTypes : Option (List String)) : Except String (List SearchResult) :=
  if !isInitialized then
    .error "Sistema RAG no inicializado"
  else
    match documentTypes with
    | some ts => .ok (searchByDocumentType configured invoke ts maxChunks)
    | none => .ok (searchDocuments configured invoke maxChunks none)

/-- `SecurityKnowledgeRAG.search_relevant_context` as the caller sees it:
the `except Exception` clause catches every failure of the body — the
not-initialized `ValueError` included — and returns `[]`. -/
def searchRelevantContext (isInitialized : Bool) (configured : Bool)
    (invoke : Except String (List PyDoc)) (maxChunks : Nat)
    (documentTypes : Option (List String)) : Except String (List SearchResult) :=
  match searchRelevantContextBody isInitialized configured invoke maxChunks documentTypes with
  | .ok l => .ok l
  | .error _ => .ok []

/-! ## Prompt formatting (`retriever.py:257-292`) -/

/-- The per-source header line
`f"\n--- Fuente {i}: {doc_type} ({filename}) ---"`. -/
def sourceHeader (i : Nat) (r : SearchResult) : String :=
  "\n--- Fuente " ++ toString i ++ ": "
    ++ pyTitle (pyReplace (getStrD r.metadata "document_type" "") "_" " ")
    ++ " (" ++ pyReplace (getStrD r.metadata "filename" "") ".txt" ""
    ++ ") ---"

/-- The `f"Keywords: {', '.join(keywords[:5])}"` line.  The stored
keywords value is a string, so Python slices and joins its first five
characters. -/
def keywordsLine (s : String) : String :=
  "Keywords: " ++ pyJoin ", " ((s.toList.take 5).map Char.toString)

/-- The lines contributed by one result (header, optional keywords line,
stripped content). -/
def resultLines (i : Nat) (r : SearchResult) : List String :=
  [sourceHeader i r]
    ++ (match r.keywords with
        | some s => if s.isEmpty then [] else [keywordsLine s]
        | none => [])
    ++ [pyStrip r.content]

/-- `SecurityRetriever.format_context_for_prompt`. -/
def formatContextForPrompt (searchResults : List SearchResult) : String :=
  if searchResults.isEmpty then ""
  else
    pyJoin "\n"
      (["=== CONOCIMIENTO DE CIBERSEGURIDAD ==="]
        ++ ((pyEnumerate 1 searchResults).map (fun p => resultLines p.1 p.2)).flatten
        ++ ["\n=== FIN DEL CONOCIMIENTO ===\n"])

/-! ## Vector Index (`vector_store.py`) -/

/-- The persisted Chroma collection as seen through `vectorstore.get()`:
the record identifiers are all the claims need. -/
structure ChromaCollection where
  ids : List String
deriving DecidableEq, Repr

/-- `SecurityVectorStore._cache_exists`: the persist directory exists and
holds the required Chroma files (`chroma.sqlite3`, `index`). -/
def cacheExistsCheck (persistDirExists requiredFilesPresent : Bool) : Bool :=
  persistDirExists && requiredFilesPresent

/-- The body of `SecurityVectorStore.load_existing_vectorstore` without
its `try/except`: `loadResult` models the fallible Chroma open +
`vectorstore.get()` (an `.error` is a malformed persisted snapshot). -/
def loadExistingVectorstoreBody (cacheExists embeddingsInitialized : Bool)
    (loadResult : Except String ChromaCollection) :
    Except String (Option ChromaCollection) :=
  if !cacheExists then .ok none
  else if !embeddingsInitialized then .error "Embeddings no inicializados"
  else
    match loadResult with
    | .error e => .error e
    | .ok col => if col.ids.isEmpty then .ok none else .ok (some col)

/-- `SecurityVectorStore.load_existing_vectorstore` as the caller sees
it: the `except Exception` clause turns every failure into `None`. -/
def loadExistingVectorstore (cacheExists embeddingsInitialized : Bool)
    (loadResult : Except String ChromaCollection) : Option ChromaCollection :=
  match loadExistingVectorstoreBody cacheExists embeddingsInitialized loadResult with
  | .ok o => o
  | .error _ => none

/-- `SecurityVectorStore.should_reindex`: rebuild when no cache exists,
or when some source file's modification time is strictly later than the
cache timestamp.  Timestamps are modelled as `Int`; `docMtimes` lists the
`st_mtime` of every `**/*.txt` file under the documents path. -/
def shouldReindex (cacheExists : Bool) (cacheTime : Int) (docMtimes : List Int) : Bool :=
  if !cacheExists then true
  else docMtimes.any (fun t => cacheTime < t)

/-- The on-disk and in-memory state of `SecurityVectorStore` that the
cleanup claims observe. -/
structure VectorStoreState where
  persistDirExists : Bool
  vectorstore : Option ChromaCollection
  embeddingsInitialized : Bool
deriving DecidableEq, Repr

/-- `SecurityVectorStore.cleanup_vectorstore`: `shutil.rmtree` on the
persist directory when it exists, then the in-memory reference is
cleared and `True` returned.  `rmtreeFails` injects an exception from
`rmtree`: it is caught, `False` is returned and the state is left as it
was. -/
def cleanupVectorstore (s : VectorStoreState) (rmtreeFails : Bool) :
    VectorStoreState × Bool :=
  if s.persistDirExists && rmtreeFails then (s, false)
  else ({ s with persistDirExists := false, vectorstore := none }, true)

/-! ## Knowledge Orchestrator state (`core.py`) -/

/-- The `self.stats` dict of `SecurityKnowledgeRAG`. -/
structure RagStats where
  documentsLoaded : Nat
  chunksCreated : Nat
  initializationTime : Option Int
  retrievalCalls : Nat
  lastSearch : Option String
deriving DecidableEq, Repr

/-- The statistics dict as (re)built in `__init__` and `cleanup`. -/
def initialStats : RagStats :=
  { documentsLoaded := 0, chunksCreated := 0, initializationTime := none,
    retrievalCalls := 0, lastSearch := none }

/-- The orchestrator state the cleanup claim observes. -/
structure RagState where
  vs : VectorStoreState
  isInitialized : Bool
  initializationTime : Option Int
  retrieverBound : Bool
  stats : RagStats
deriving DecidableEq, Repr

/-- `SecurityKnowledgeRAG.cleanup`: delegates to the vector store's
cleanup (whose boolean result is ignored), then resets the orchestrator
flags and statistics and returns `True`. -/
def cleanup (s : RagState) (rmtreeFails : Bool) : RagState × Bool :=
  let vs' := (cleanupVectorstore s.vs rmtreeFails).1
  ({ vs := vs', isInitialized := false, initializationTime := none,
     retrieverBound := false, stats := initialStats }, true)

/-! ## Health check (`core.py:299-347`) -/

/-- The five per-component booleans gathered by `health_check`. -/
structure HealthComponents where
  initialized : Bool
  docsAccessible : Bool
  vectorStore : Bool
  retrieverBound : Bool
  embeddings : Bool
deriving DecidableEq, Repr

/-- The three health statuses. -/
inductive HealthStatus where
  | healthy
  | degraded
  | unhealthy
deriving DecidableEq, Repr

/-- `all(health["components"].values())`. -/
def allComponents (c : HealthComponents) : Bool :=
  c.initialized && c.docsAccessible && c.vectorStore && c.retrieverBound && c.embeddings

/-- `SecurityKnowledgeRAG.health_check`.  `checkException` injects an
exception raised by the check itself (outer `try`); `testResults` is the
list returned by the live `search_relevant_context("test", 1)` call,
which never raises (its own failures degrade to `[]`). -/
def healthCheck (checkException : Option String) (c : HealthComponents)
    (testResults : List SearchResult) : HealthStatus :=
  match checkException with
  | some _ => .unhealthy
  | none =>
    let testSearchSuccessful :=
      if c.retrieverBound && c.initialized then decide (0 < testResults.length)
      else false
    let status := HealthStatus.healthy
    let status := if !(allComponents c) then HealthStatus.degraded else status
    let status := if !testSearchSuccessful then HealthStatus.degraded else status
    status

/-! ## Concrete sample data for witnesses and counterexamples -/

/-- A chunk as the ingestion pipeline produces it. -/
def sampleDoc : PyDoc :=
  { pageContent := "MAGERIT define amenaza y riesgo para cada activo."
    metadata :=
      [("document_type", .s "metodologia_riesgo"),
       ("filename", .s "magerit.txt"),
       ("keywords", .s "magerit, amenaza, riesgo, activo"),
       ("chunk_id", .s "magerit.txt_0"),
       ("chunk_index", .i 0),
       ("total_chunks", .i 1)] }

/-! ## Claim C1 (readiness signalling) -/

/-- Claim C1, counterexample: with the system not yet initialized, a
concrete search returns the empty result list (`Except.ok []`) and does
not signal any error: the internal not-initialized `ValueError` is
caught by `search_relevant_context`'s own `except` clause, so the caller
cannot distinguish "no context" from "system unavailable". -/
theorem searchRelevantContext_notReady_counterexample :
    searchRelevantContext false true (Except.ok [sampleDoc]) 5 none
      = Except.ok ([] : List SearchResult)
    ∧ ∀ e : String,
        searchRelevantContext false true (Except.ok [sampleDoc]) 5 none
          ≠ Except.error e := by
  refine ⟨rfl, ?_⟩
  intro e h
  exact Except.noConfusion h

/-- Claim C1 (amended): for every query issued while the orchestrator is
not yet `Ready`, `search_relevant_context` returns the empty result list
(the internal not-initialized error being caught inside the method), so
the caller cannot distinguish "no context" from "system unavailable". -/
theorem searchRelevantContext_uninitialized_empty (configured : Bool)
    (invoke : Except String (List PyDoc)) (maxChunks : Nat)
    (documentTypes : Option (List String)) :
    searchRelevantContext false configured invoke maxChunks documentTypes
      = Except.ok ([] : List SearchResult) := rfl

/-! ## Claim C2 (query-time failures degrade to an empty list) -/

/-- Claim C2: no exception propagates past `search_documents`: whenever
the body fails (unconfigured retriever, or a failing retriever
invocation covering embedding/provider errors), the call returns
`Except.ok []`; moreover `search_documents` and the orchestrator's
`search_relevant_context` always return `Except.ok` of some list, so the
surrounding analysis flow can still produce output. -/
theorem searchDocuments_never_throws (configured : Bool)
    (invoke : Except String (List PyDoc)) (maxResults : Nat)
    (filterMetadata : Option (List (String × FilterVal)))
    (hfail : configured = false ∨ ∃ e, invoke = Except.error e) :
    searchDocumentsEx configured invoke maxResults filterMetadata
      = Except.ok ([] : List SearchResult)
    ∧ (∀ (c : Bool) (inv : Except String (List PyDoc)) (k : Nat)
         (fm : Option (List (String × FilterVal))),
         ∃ l, searchDocumentsEx c inv k fm = Except.ok l)
    ∧ (∀ (isInit c : Bool) (inv : Except String (List PyDoc)) (k : Nat)
         (dts : Option (List String)),
         ∃ l, searchRelevantContext isInit c inv k dts = Except.ok l) := by
  refine ⟨?_, ?_, ?_⟩
  · rcases hfail with h | ⟨e, h⟩
    · subst h; rfl
    · subst h
      cases configured <;> rfl
  · intro c inv k fm
    cases h : searchDocumentsBody c inv k fm <;>
      simp [searchDocumentsEx, h]
  · intro isInit c inv k dts
    cases h : searchRelevantContextBody isInit c inv k dts <;>
      simp [searchRelevantContext, h]

/-- Witness for claim C2 at a concrete failing input (retriever not
configured). -/
theorem searchDocuments_never_throws_witness :
    searchDocumentsEx false (Except.ok [sampleDoc]) 5 none
      = Except.ok ([] : List SearchResult) :=
  (searchDocuments_never_throws false (Except.ok [sampleDoc]) 5 none
    (Or.inl rfl)).1

/-! ## Claim C4 (rebuild trigger is monotone in a single file's mtime) -/

/-- Helper: writing back the element already stored at a valid index
leaves the list unchanged. -/
theorem set_getElem_self_eq {α : Type} :
    ∀ (l : List α) (i : Nat) (h : i < l.length), l.set i l[i] = l
  | _ :: _, 0, _ => rfl
  | a :: l, i + 1, h => by
    have := set_getElem_self_eq l i (by simpa using h)
    simpa [List.set] using this

/-- Claim C4: with a snapshot present and `should_reindex` false, moving
any single source file's modification time strictly past the cache
timestamp flips the result to true; reverting that file's timestamp to
its stored value (no other file changed) flips it back to false; and
with no snapshot the result is always true. -/
theorem shouldReindex_monotone (cacheTime : Int) (docMtimes : List Int)
    (i : Nat) (tNew : Int)
    (hfalse : shouldReindex true cacheTime docMtimes = false)
    (hi : i < docMtimes.length) (ht : cacheTime < tNew) :
    shouldReindex true cacheTime (docMtimes.set i tNew) = true
    ∧ shouldReindex true cacheTime
        ((docMtimes.set i tNew).set i docMtimes[i]) = false
    ∧ ∀ (ct : Int) (ms : List Int), shouldReindex false ct ms = true := by
  refine ⟨?_, ?_, fun ct ms => rfl⟩
  · have hmem : tNew ∈ docMtimes.set i tNew := by
      have hlen : i < (docMtimes.set i tNew).length := by
        simpa using hi
      have h1 := List.getElem_mem hlen
      rwa [List.getElem_set_self hlen] at h1
    simp only [shouldReindex, Bool.not_true, Bool.false_eq_true, if_false,
      List.any_eq_true]
    exact ⟨tNew, hmem, by simpa using ht⟩
  · rw [List.set_set, set_getElem_self_eq docMtimes i hi]
    exact hfalse

/-- Witness for claim C4 at a concrete snapshot state and file list. -/
theorem shouldReindex_monotone_witness :
    shouldReindex true 0 (([-1, 0] : List Int).set 0 5) = true :=
  (shouldReindex_monotone 0 [-1, 0] 0 5 (by decide) (by decide) (by decide)).1

/-! ## Claim C6 (metadata filter semantics, applied before truncation) -/

/-- The inner filter loop with early `break` equals `List.all`. -/
theorem includeDoc_eq_all (md : List (String × PyVal)) :
    ∀ fs : List (String × FilterVal),
      includeDoc md fs = fs.all (satisfiesFilter md)
  | [] => rfl
  | f :: fs => by
    rw [includeDoc, includeDoc_eq_all md fs, List.all_cons]
    cases satisfiesFilter md f <;> simp

/-- The outer document loop equals `List.filter`. -/
theorem applyMetadataFilters_eq_filter (filters : List (String × FilterVal)) :
    ∀ docs : List PyDoc,
      applyMetadataFilters docs filters
        = docs.filter (fun d => includeDoc d.metadata filters)
  | [] => rfl
  | d :: ds => by
    rw [applyMetadataFilters, applyMetadataFilters_eq_filter filters ds,
      List.filter_cons]

/-- Claim C6: the metadata filter retains exactly the results whose
metadata satisfies every filter key — membership for a collection-valued
filter, equality for a scalar-valued filter — and is applied before the
`max_results` truncation. -/
theorem metadataFilter_spec (docs : List PyDoc)
    (filters : List (String × FilterVal)) (maxResults : Nat) :
    applyMetadataFilters docs filters
      = docs.filter (fun d => filters.all (satisfiesFilter d.metadata))
    ∧ (∀ (md : List (String × PyVal)) (key : String) (vals : List PyVal),
        satisfiesFilter md (key, FilterVal.list vals) = true
          ↔ ∃ v, mdGet md key = some v ∧ v ∈ vals)
    ∧ (∀ (md : List (String × PyVal)) (key : String) (v0 : PyVal),
        satisfiesFilter md (key, FilterVal.scalar v0) = true
          ↔ mdGet md key = some v0)
    ∧ searchDocuments true (Except.ok docs) maxResults (some filters)
        = formatResults ((applyMetadataFilters docs filters).take maxResults) := by
  refine ⟨?_, ?_, ?_, rfl⟩
  · rw [applyMetadataFilters_eq_filter]
    exact List.filter_congr (fun d _ => includeDoc_eq_all d.metadata filters)
  · intro md key vals
    cases h : mdGet md key <;> simp [satisfiesFilter, h]
  · intro md key v0
    cases h : mdGet md key <;> simp [satisfiesFilter, h]

/-- Witness for claim C6: a concrete scalar filter matches a concrete
metadata map. -/
theorem metadataFilter_spec_witness :
    satisfiesFilter [("document_type", PyVal.s "metodologia_riesgo")]
      ("document_type", FilterVal.scalar (PyVal.s "metodologia_riesgo")) = true :=
  ((metadataFilter_spec [] [] 0).2.2.1
    [("document_type", PyVal.s "metodologia_riesgo")]
    "document_type" (PyVal.s "metodologia_riesgo")).mpr rfl

/-! ## Claim C8 (when `load` yields None) -/

/-- Claim C8, counterexample: `load_existing_vectorstore` also returns
`None` in a fourth situation the claim omits — a durable, well-formed,
non-empty snapshot exists but the embeddings are not initialized (the
internal `ValueError` is caught). -/
theorem loadExistingVectorstore_counterexample :
    loadExistingVectorstore true false (Except.ok ⟨["chunk_0"]⟩) = none
    ∧ ¬ ((true : Bool) = false
        ∨ (∃ e, (Except.ok ⟨["chunk_0"]⟩ : Except String ChromaCollection)
            = Except.error e)
        ∨ (∃ col, (Except.ok ⟨["chunk_0"]⟩ : Except String ChromaCollection)
            = Except.ok col ∧ col.ids = [])) := by
  refine ⟨rfl, ?_⟩
  rintro (h | ⟨e, h⟩ | ⟨col, hc, hids⟩)
  · exact Bool.noConfusion h
  · exact Except.noConfusion h
  · cases hc
    exact List.noConfusion hids

/-- Claim C8 (amended): `load` returns `None` in exactly four
situations — no durable snapshot exists, the embeddings are not
initialized (internal error caught), the persisted snapshot is malformed
and fails to load (caught, treated as absent), or the snapshot decodes
to zero records; in particular a malformed snapshot is never surfaced as
an error. -/
theorem loadExistingVectorstore_none_iff (cacheEx embInit : Bool)
    (loadResult : Except String ChromaCollection) :
    (loadExistingVectorstore cacheEx embInit loadResult = none
      ↔ (cacheEx = false ∨ embInit = false
        ∨ (∃ e, loadResult = Except.error e)
        ∨ (∃ col, loadResult = Except.ok col ∧ col.ids = [])))
    ∧ ∀ e : String, loadExistingVectorstore cacheEx embInit (Except.error e) = none := by
  constructor
  · cases cacheEx <;> cases embInit <;> rcases loadResult with e | col <;>
      simp [loadExistingVectorstore, loadExistingVectorstoreBody]
    rcases col with ⟨ids⟩
    cases ids <;> simp
  · intro e
    cases cacheEx <;> cases embInit <;> rfl

/-- Witness for claim C8 at a concrete absent snapshot. -/
theorem loadExistingVectorstore_none_iff_witness :
    loadExistingVectorstore false true (Except.ok ⟨["chunk_0"]⟩) = none :=
  ((loadExistingVectorstore_none_iff false true
    (Except.ok ⟨["chunk_0"]⟩)).1).mpr (Or.inl rfl)

/-! ## Claim C9 (health status trichotomy) -/

/-- Claim C9: the health check reports `degraded` iff it completes
without an exception and either some per-component boolean is false or
the live test query returned zero results; `healthy` iff all component
booleans are true and the test query returned at least one result; and
`unhealthy` iff an exception occurred during the check itself. -/
theorem healthCheck_spec (checkException : Option String)
    (c : HealthComponents) (testResults : List SearchResult) :
    (healthCheck checkException c testResults = HealthStatus.degraded
      ↔ checkException = none
        ∧ (allComponents c = false ∨ testResults.length = 0))
    ∧ (healthCheck checkException c testResults = HealthStatus.healthy
      ↔ checkException = none ∧ allComponents c = true
        ∧ 0 < testResults.length)
    ∧ (healthCheck checkException c testResults = HealthStatus.unhealthy
      ↔ checkException ≠ none) := by
  obtain ⟨i, d, v, r, e⟩ := c
  cases checkException <;> cases i <;> cases d <;> cases v <;> cases r <;>
    cases e <;> cases testResults <;> simp [healthCheck, allComponents]

/-- Witness for claim C9: an initialized system whose live test query
finds nothing is degraded. -/
theorem healthCheck_spec_witness :
    healthCheck none ⟨true, true, true, true, true⟩ ([] : List SearchResult)
      = HealthStatus.degraded :=
  (healthCheck_spec none ⟨true, true, true, true, true⟩ []).1.mpr
    ⟨rfl, Or.inr rfl⟩

/-! ## Claim C10 (cleanup is destructive) -/

/-- Claim C10: a successful cleanup (the vector-store cleanup reported
`True`, i.e. `shutil.rmtree` did not fail) deletes the persisted
snapshot directory, clears the vector-store reference, marks the
orchestrator uninitialized, zeroes all statistics, and makes any
subsequent load find no snapshot while the rebuild check fires. -/
theorem cleanup_destroys_snapshot (s : RagState) (rmtreeFails : Bool)
    (hok : (cleanupVectorstore s.vs rmtreeFails).2 = true)
    (requiredFilesPresent : Bool)
    (loadResult : Except String ChromaCollection)
    (cacheTime : Int) (docMtimes : List Int) :
    (cleanup s rmtreeFails).2 = true
    ∧ (cleanup s rmtreeFails).1.vs.persistDirExists = false
    ∧ (cleanup s rmtreeFails).1.vs.vectorstore = none
    ∧ (cleanup s rmtreeFails).1.isInitialized = false
    ∧ (cleanup s rmtreeFails).1.retrieverBound = false
    ∧ (cleanup s rmtreeFails).1.stats = initialStats
    ∧ loadExistingVectorstore
        (cacheExistsCheck (cleanup s rmtreeFails).1.vs.persistDirExists
          requiredFilesPresent)
        (cleanup s rmtreeFails).1.vs.embeddingsInitialized loadResult = none
    ∧ shouldReindex
        (cacheExistsCheck (cleanup s rmtreeFails).1.vs.persistDirExists
          requiredFilesPresent)
        cacheTime docMtimes = true := by
  have hvs : (cleanupVectorstore s.vs rmtreeFails).1
      = { s.vs with persistDirExists := false, vectorstore := none } := by
    unfold cleanupVectorstore at hok ⊢
    by_cases h : s.vs.persistDirExists && rmtreeFails
    · simp [h] at hok
    · simp [h]
  refine ⟨rfl, ?_, ?_, rfl, rfl, rfl, ?_, ?_⟩
  · simp [cleanup, hvs]
  · simp [cleanup, hvs]
  · simp [cleanup, hvs, cacheExistsCheck, loadExistingVectorstore,
      loadExistingVectorstoreBody]
  · simp [cleanup, hvs, cacheExistsCheck, shouldReindex]

/-- Witness for claim C10 at a concrete fully-initialized state. -/
theorem cleanup_destroys_snapshot_witness :
    (cleanup
      { vs := { persistDirExists := true, vectorstore := some ⟨["chunk_0"]⟩,
                embeddingsInitialized := true }
        isInitialized := true, initializationTime := some 2,
        retrieverBound := true,
        stats := { documentsLoaded := 3, chunksCreated := 7,
                   initializationTime := some 2, retrievalCalls := 5,
                   lastSearch := some "incidente" } } false).1.vs.persistDirExists
      = false :=
  (cleanup_destroys_snapshot _ false (by decide) true
    (Except.ok ⟨["chunk_0"]⟩) 0 []).2.1

/-! ## Claim C5 (keyword-restricted search) -/

/-- A fetch budget of zero retains no documents. -/
theorem searchDocuments_zero (c : Bool) (inv : Except String (List PyDoc))
    (fm : Option (List (String × FilterVal))) :
    searchDocuments c inv 0 fm = [] := by
  cases c
  · rfl
  · rcases inv with e | docs
    · rfl
    · cases fm <;>
        simp [searchDocuments, searchDocumentsEx, searchDocumentsBody,
          formatResults, pyEnumerate]

/-- `appendIfMatch` grows the accumulator by at most one element. -/
theorem appendIfMatch_length (required : List String) (r : SearchResult)
    (acc : List SearchResult) :
    (appendIfMatch required r acc).length ≤ acc.length + 1 := by
  unfold appendIfMatch
  cases hasRequiredKeywords required r <;> simp

/-- Every element of `appendIfMatch` is an old element or the freshly
annotated matching result. -/
theorem appendIfMatch_mem (required : List String) (r : SearchResult)
    (acc : List SearchResult) (x : SearchResult)
    (hx : x ∈ appendIfMatch required r acc) :
    x ∈ acc ∨ (hasRequiredKeywords required r = true
      ∧ x = withMatched required r) := by
  unfold appendIfMatch at hx
  cases h : hasRequiredKeywords required r
  · rw [h] at hx
    simp at hx
    exact Or.inl hx
  · rw [h] at hx
    rcases List.mem_append.mp hx with h' | h'
    · exact Or.inl h'
    · exact Or.inr ⟨rfl, by simpa using h'⟩

/-- The loop never grows past `maxResults` once the accumulator is below
the bound. -/
theorem searchByKeywordsLoop_length (required : List String) (k : Nat) :
    ∀ (rs acc : List SearchResult), acc.length < k →
      (searchByKeywordsLoop required k rs acc).length ≤ k
  | [], _, h => Nat.le_of_lt h
  | r :: rs, acc, h => by
    rw [searchByKeywordsLoop]
    have hlen := appendIfMatch_length required r acc
    by_cases hk : k ≤ (appendIfMatch required r acc).length
    · rw [if_pos hk]
      omega
    · rw [if_neg hk]
      exact searchByKeywordsLoop_length required k rs _ (by omega)

/-- Every element the loop returns is an accumulator element or an
annotated matching candidate. -/
theorem searchByKeywordsLoop_mem (required : List String) (k : Nat) :
    ∀ (rs acc : List SearchResult) (x : SearchResult),
      x ∈ searchByKeywordsLoop required k rs acc →
      x ∈ acc ∨ ∃ r0 ∈ rs, hasRequiredKeywords required r0 = true
        ∧ x = withMatched required r0
  | [], _, _, hx => Or.inl hx
  | r :: rs, acc, x, hx => by
    rw [searchByKeywordsLoop] at hx
    by_cases hk : k ≤ (appendIfMatch required r acc).length
    · rw [if_pos hk] at hx
      rcases appendIfMatch_mem required r acc x hx with h | ⟨hm, he⟩
      · exact Or.inl h
      · exact Or.inr ⟨r, List.mem_cons_self _ _, hm, he⟩
    · rw [if_neg hk] at hx
      rcases searchByKeywordsLoop_mem required k rs _ x hx with h | ⟨r0, hr0, hm, he⟩
      · rcases appendIfMatch_mem required r acc x h with h' | ⟨hm', he'⟩
        · exact Or.inl h'
        · exact Or.inr ⟨r, List.mem_cons_self _ _, hm', he'⟩
      · exact Or.inr ⟨r0, List.mem_cons_of_mem _ hr0, hm, he⟩

/-- Claim C5: `search_by_keywords` draws its candidates from a
`2 * max_results` similarity fetch, returns only results whose raw text
or stored keyword string contains at least one required keyword
(case-insensitively), annotates each returned result with exactly the
subset of required keywords it matched, and never returns more than
`max_results` results. -/
theorem searchByKeywords_spec (configured : Bool)
    (invoke : Except String (List PyDoc)) (required : List String) (k : Nat) :
    (searchByKeywords configured invoke required k).length ≤ k
    ∧ ∀ r ∈ searchByKeywords configured invoke required k,
        (∃ kw ∈ required,
          pyInOpt (pyLower kw) r.keywords = true
          ∨ pyIn (pyLower kw) (pyLower r.content) = true)
        ∧ r.matchedKeywords = required.filter (fun kw =>
            pyIn (pyLower kw) (pyLower r.content)
            || pyInOpt (pyLower kw) r.keywords)
        ∧ ∃ r0 ∈ searchDocuments configured invoke (k * 2) none,
            r = withMatched required r0 := by
  constructor
  · unfold searchByKeywords
    rcases Nat.eq_zero_or_pos k with rfl | hk
    · rw [show (0 * 2) = 0 from rfl, searchDocuments_zero]
      simp [searchByKeywordsLoop]
    · exact searchByKeywordsLoop_length required k _ [] (by simpa using hk)
  · intro r hr
    unfold searchByKeywords at hr
    rcases searchByKeywordsLoop_mem required k _ [] r hr with h | ⟨r0, hr0, hm, he⟩
    · simp at h
    · subst he
      refine ⟨?_, rfl, ⟨r0, hr0, rfl⟩⟩
      unfold hasRequiredKeywords at hm
      rw [List.any_eq_true] at hm
      obtain ⟨kw, hkwmem, hkw⟩ := hm
      rw [Bool.or_eq_true] at hkw
      exact ⟨kw, hkwmem, hkw⟩

/-- Witness for claim C5 at a concrete corpus and keyword list. -/
theorem searchByKeywords_spec_witness :
    (withMatched ["magerit"] (toSearchResult 0 sampleDoc)).matchedKeywords
      = ["magerit"].filter (fun kw =>
          pyIn (pyLower kw)
            (pyLower (withMatched ["magerit"] (toSearchResult 0 sampleDoc)).content)
          || pyInOpt (pyLower kw)
            (withMatched ["magerit"] (toSearchResult 0 sampleDoc)).keywords) :=
  ((searchByKeywords_spec true (Except.ok [sampleDoc]) ["magerit"] 1).2
    (withMatched ["magerit"] (toSearchResult 0 sampleDoc)) (by decide)).2.1

/-! ## Claim C3 (prompt block delimiters) -/

/-- Claim C3, counterexample: on a concrete non-empty result list the
formatted block is the Spanish-delimited text below; it neither begins
with `=== BEGIN KNOWLEDGE ===` nor contains `=== END KNOWLEDGE ===`
anywhere. -/
theorem formatContextForPrompt_counterexample :
    formatContextForPrompt [toSearchResult 0 sampleDoc]
      = "=== CONOCIMIENTO DE CIBERSEGURIDAD ===\n\n--- Fuente 1: Metodologia Riesgo (magerit) ---\nKeywords: m, a, g, e, r\nMAGERIT define amenaza y riesgo para cada activo.\n\n=== FIN DEL CONOCIMIENTO ===\n"
    ∧ List.isPrefixOf "=== BEGIN KNOWLEDGE ===".toList
        (formatContextForPrompt [toSearchResult 0 sampleDoc]).toList = false
    ∧ infixCheck "=== END KNOWLEDGE ===".toList
        (formatContextForPrompt [toSearchResult 0 sampleDoc]).toList = false :=
  ⟨rfl, by decide, by decide⟩

/-- A `pyJoin` over at least two parts starts with the first part
followed by the separator. -/
theorem pyJoin_first (sep x : String) (rest : List String) (h : rest ≠ []) :
    ∃ t, pyJoin sep (x :: rest) = x ++ sep ++ t := by
  rcases rest with _ | ⟨y, ys⟩
  · exact absurd rfl h
  · exact ⟨pyJoin sep (y :: ys), rfl⟩

/-- A `pyJoin` whose last part is `y` ends with `y`. -/
theorem pyJoin_last (sep y : String) :
    ∀ xs : List String, ∃ t, pyJoin sep (xs ++ [y]) = t ++ y
  | [] => ⟨"", by simp [pyJoin]⟩
  | x :: xs => by
    rcases xs with _ | ⟨z, zs⟩
    · exact ⟨x ++ sep, rfl⟩
    · obtain ⟨t, ht⟩ := pyJoin_last sep y (z :: zs)
      refine ⟨x ++ sep ++ t, ?_⟩
      simp only [List.cons_append] at ht ⊢
      rw [pyJoin, ht, String.append_assoc (x ++ sep) t y]

/-- Every part of a `pyJoin` occurs contiguously in the joined string. -/
theorem pyJoin_mem_decomp (sep : String) :
    ∀ (L : List String) (x : String), x ∈ L →
      ∃ a b, pyJoin sep L = a ++ x ++ b
  | [], x, hx => absurd hx (List.not_mem_nil x)
  | [y], x, hx => by
    rw [List.mem_singleton] at hx
    subst hx
    exact ⟨"", "", by simp [pyJoin]⟩
  | y :: z :: L, x, hx => by
    rcases List.mem_cons.mp hx with rfl | hx'
    · refine ⟨"", sep ++ pyJoin sep (z :: L), ?_⟩
      rw [pyJoin]
      simp [String.append_assoc]
    · obtain ⟨a, b, hab⟩ := pyJoin_mem_decomp sep (z :: L) x hx'
      refine ⟨y ++ sep ++ a, b, ?_⟩
      rw [pyJoin, hab]
      simp [String.append_assoc]

/-- Claim C3 (amended): for every non-empty result list the formatted
block begins with the delimiter line
`=== CONOCIMIENTO DE CIBERSEGURIDAD ===`, contains the per-source header
(`sourceHeader i r`, the `--- Fuente i: ... ---` line) for every
1-enumerated result, and ends with the delimiter line
`=== FIN DEL CONOCIMIENTO ===` followed by a trailing newline. -/
theorem formatContextForPrompt_delimits (searchResults : List SearchResult)
    (hne : searchResults ≠ []) :
    (∃ t, formatContextForPrompt searchResults
        = "=== CONOCIMIENTO DE CIBERSEGURIDAD ===" ++ "\n" ++ t)
    ∧ (∃ t, formatContextForPrompt searchResults
        = t ++ "\n=== FIN DEL CONOCIMIENTO ===\n")
    ∧ ∀ p ∈ pyEnumerate 1 searchResults,
        ∃ a b, formatContextForPrompt searchResults
          = a ++ sourceHeader p.1 p.2 ++ b := by
  have hE : searchResults.isEmpty = false := List.isEmpty_eq_false.mpr hne
  have hfmt : formatContextForPrompt searchResults
      = pyJoin "\n"
          (["=== CONOCIMIENTO DE CIBERSEGURIDAD ==="]
            ++ ((pyEnumerate 1 searchResults).map
                (fun p => resultLines p.1 p.2)).flatten
            ++ ["\n=== FIN DEL CONOCIMIENTO ===\n"]) := by
    rw [formatContextForPrompt, hE]
    rfl
  refine ⟨?_, ?_, ?_⟩
  · obtain ⟨t, ht⟩ := pyJoin_first "\n" "=== CONOCIMIENTO DE CIBERSEGURIDAD ==="
      (((pyEnumerate 1 searchResults).map (fun p => resultLines p.1 p.2)).flatten
        ++ ["\n=== FIN DEL CONOCIMIENTO ===\n"]) (by simp)
    exact ⟨t, by rw [hfmt]; exact ht⟩
  · obtain ⟨t, ht⟩ := pyJoin_last "\n" "\n=== FIN DEL CONOCIMIENTO ===\n"
      ("=== CONOCIMIENTO DE CIBERSEGURIDAD ==="
        :: ((pyEnumerate 1 searchResults).map (fun p => resultLines p.1 p.2)).flatten)
    refine ⟨t, ?_⟩
    rw [hfmt]
    simpa using ht
  · intro p hp
    have hline : sourceHeader p.1 p.2
        ∈ ("=== CONOCIMIENTO DE CIBERSEGURIDAD ==="
            :: ((pyEnumerate 1 searchResults).map
                (fun p => resultLines p.1 p.2)).flatten
            ++ ["\n=== FIN DEL CONOCIMIENTO ===\n"]) := by
      have h1 : sourceHeader p.1 p.2 ∈ resultLines p.1 p.2 := by
        simp [resultLines]
      have h2 : resultLines p.1 p.2
          ∈ (pyEnumerate 1 searchResults).map (fun p => resultLines p.1 p.2) :=
        List.mem_map.mpr ⟨p, hp, rfl⟩
      have h3 : sourceHeader p.1 p.2
          ∈ ((pyEnumerate 1 searchResults).map
              (fun p => resultLines p.1 p.2)).flatten :=
        List.mem_flatten.mpr ⟨resultLines p.1 p.2, h2, h1⟩
      exact List.mem_cons_of_mem _ (List.mem_append_left _ h3)
    obtain ⟨a, b, hab⟩ := pyJoin_mem_decomp "\n" _ (sourceHeader p.1 p.2) hline
    refine ⟨a, b, ?_⟩
    rw [hfmt]
    simpa using hab

/-- Witness for claim C3 at a concrete non-empty result list. -/
theorem formatContextForPrompt_delimits_witness :
    ∃ t, formatContextForPrompt [toSearchResult 0 sampleDoc]
      = t ++ "\n=== FIN DEL CONOCIMIENTO ===\n" :=
  (formatContextForPrompt_delimits [toSearchResult 0 sampleDoc] (by simp)).2.1

end RiskRAG
